import Mathlib

/-
  Verification of the Road-Raksha ambulance fleet simulator
  (the Express server: `fetchRoute`, `initializeAmbulances`, `assignNewRoute`,
  `updateAmbulances` and the `/api/ambulances` handler).

  Numbers of the JavaScript runtime are modelled as real numbers.  The two
  external effects are modelled as oracles passed to every operation:
    * `Math.random()` as an indexed stream `g : ℕ → ℝ` of draws in `[0, 1)`;
      each syntactic call site of the source consumes its own index;
    * the OSRM HTTP round trip as `osrm : Coord → Coord → Option OsrmResponse`
      (`none` is a transport error or a malformed body).
  The source dispatches `assignNewRoute` without awaiting it; per the spec's
  concurrency discipline (§5, §9) the fetched path must be applied atomically,
  so route assignment is modelled as taking effect within the same operation.
-/

set_option maxHeartbeats 1000000

open scoped Classical

noncomputable section

namespace RoadRaksha

/-- A latitude/longitude pair, the `{lat, lng}` objects of the server. -/
@[ext]
structure Coord where
  lat : ℝ
  lng : ℝ

/-- The empty string (used as a default for total list lookups). -/
def emptyStr : String := ""

/-- Base location latitude (New Delhi), `BASE_LAT` in the source. -/
def BASE_LAT : ℝ := 28.6139

/-- Base location longitude, `BASE_LNG` in the source. -/
def BASE_LNG : ℝ := 77.2090

/-- The fixed pool of operator names of the source. -/
def driverNames : List String :=
  [ "Rahul Singh", "Vikram Malhotra", "Amit Kumar", "Suresh Raina",
    "Chandu Model", "Anjali Gupta", "Rohan Das", "Karan Johar",
    "Sneha Reddy", "Arjun Kapoor" ]

/-- The fixed pool of statuses of the source. -/
def statuses : List String := [ "Available", "En Route", "Busy" ]

/-- Source helper `getRandom(min, max) = Math.random() * (max - min) + min`,
with the `Math.random()` draw `u` made explicit. -/
def getRandom (u lo hi : ℝ) : ℝ := u * (hi - lo) + lo

/-- Source helper `getRandomItem(arr) = arr[Math.floor(Math.random() * arr.length)]`,
with the draw `u` made explicit. -/
def getRandomItem (arr : List String) (u : ℝ) : String :=
  arr.getD (⌊u * (arr.length : ℝ)⌋).toNat emptyStr

/-- One candidate route of an OSRM response: `geometry.coordinates` is a list
of pairs that are longitude-first on the wire (`(lng, lat)`). -/
structure OsrmRoute where
  geometry : List (ℝ × ℝ)

/-- The body of an OSRM response: `response.data.routes`. -/
structure OsrmResponse where
  routes : List OsrmRoute

/-- The external routing provider: `none` models a transport error or a
malformed response (the `catch` path of the source `fetchRoute`). -/
abbrev Osrm := Coord → Coord → Option OsrmResponse

/-- The `Math.random()` stream. -/
abbrev Rng := ℕ → ℝ

/-- Source `fetchRoute`: on a response with at least one route, the first
route's geometry with every wire pair `(lng, lat)` converted to a `{lat, lng}`
coordinate; `null` (here `none`) on error or an empty route list. -/
def fetchRoute (osrm : Osrm) (start dest : Coord) : Option (List Coord) :=
  match osrm start dest with
  | none => none
  | some resp =>
    match resp.routes with
    | [] => none
    | r :: _ => some (r.geometry.map (fun c => ⟨c.2, c.1⟩))

/-- Per-vehicle mutable record, the ambulance objects of the source. -/
@[ext]
structure Ambulance where
  id : String
  driverName : String
  status : String
  speed : ℝ
  location : Coord
  lastUpdated : ℝ
  route : List Coord
  routeIndex : ℕ
  destination : Option Coord

/-- A default `Ambulance` for total list lookups. -/
def defaultAmb : Ambulance :=
  { id := emptyStr, driverName := emptyStr, status := emptyStr, speed := 0,
    location := ⟨0, 0⟩, lastUpdated := 0, route := [], routeIndex := 0,
    destination := none }

/-- The random wander destination drawn by `assignNewRoute`:
`center + getRandom(-0.03, 0.03)` on each axis (draws `k`, `k+1`). -/
def wanderDest (g : Rng) (k : ℕ) (center : Coord) : Coord :=
  ⟨center.lat + getRandom (g k) (-0.03) 0.03,
   center.lng + getRandom (g (k + 1)) (-0.03) 0.03⟩

/-- Source `assignNewRoute`: draw a destination near `center`, fetch a route
from the vehicle's location; on success replace `route`, reset `routeIndex`,
record `destination`; on failure leave the vehicle unchanged. -/
def assignNewRoute (osrm : Osrm) (g : Rng) (k : ℕ) (amb : Ambulance) (center : Coord) :
    Ambulance :=
  match fetchRoute osrm amb.location (wanderDest g k center) with
  | some r => { amb with route := r, routeIndex := 0, destination := some (wanderDest g k center) }
  | none => amb

/-- Source vehicle identity `AMB${i.toString().padStart(3, '0')}`. -/
def ambId (i : ℕ) : String :=
  "AMB" ++ (if i < 10 then "00" else if i < 100 then "0" else emptyStr) ++ toString i

/-- One iteration of the `initializeAmbulances` loop for index `i` (1-based),
using random draws `k .. k+5` in source order: start offsets, status, speed,
then the two destination draws of `assignNewRoute`. -/
def mkAmbulance (osrm : Osrm) (g : Rng) (now : ℝ) (center : Coord) (i k : ℕ) : Ambulance :=
  assignNewRoute osrm g (k + 4)
    { id := ambId i
      driverName := driverNames.getD (i - 1) emptyStr
      status := getRandomItem statuses (g (k + 2))
      speed := ((⌊getRandom (g (k + 3)) 30 60⌋ : ℤ) : ℝ)
      location := ⟨center.lat + getRandom (g k) (-0.02) 0.02,
                   center.lng + getRandom (g (k + 1)) (-0.02) 0.02⟩
      lastUpdated := now
      route := []
      routeIndex := 0
      destination := none } center

/-- Source `initializeAmbulances`: replace the fleet by ten fresh vehicles
spawned around `center` (`initializeAmbulances` in the source). -/
def initAmbulances (osrm : Osrm) (g : Rng) (now : ℝ) (center : Coord) : List Ambulance :=
  (List.range 10).map (fun j => mkAmbulance osrm g now center (j + 1) (6 * j))

/-- The body of the `updateAmbulances` per-vehicle `forEach` callback:
skip path-less vehicles; otherwise either advance toward the next waypoint
(snapping to it when the movement budget covers the remaining distance) or,
when the cursor has reached the last waypoint, clear the path and request a
new wander route from the current location.  Random draws `k`, `k+1` feed the
possible `assignNewRoute` call. -/
def tickVehicle (osrm : Osrm) (g : Rng) (now deltaTime : ℝ) (k : ℕ) (amb : Ambulance) :
    Ambulance :=
  if amb.route.length = 0 then amb
  else
    let speedMps := amb.speed / 3.6
    let distToMove := speedMps * deltaTime
    if amb.routeIndex < amb.route.length - 1 then
      let nextPoint := amb.route.getD (amb.routeIndex + 1) ⟨0, 0⟩
      let currPoint := amb.location
      let dLat := nextPoint.lat - currPoint.lat
      let dLng := nextPoint.lng - currPoint.lng
      let distToNext := Real.sqrt (dLat * dLat + dLng * dLng) * 111000
      if distToMove ≥ distToNext then
        { amb with location := nextPoint, routeIndex := amb.routeIndex + 1, lastUpdated := now }
      else
        let frac := distToMove / distToNext
        { amb with
            location := ⟨currPoint.lat + dLat * frac, currPoint.lng + dLng * frac⟩,
            lastUpdated := now }
    else
      { assignNewRoute osrm g k { amb with route := [] } amb.location with lastUpdated := now }

/-- The `forEach` over the fleet; the vehicle at position `k` uses random
draw indices `2k`, `2k+1`. -/
def tickAll (osrm : Osrm) (g : Rng) (now deltaTime : ℝ) : ℕ → List Ambulance → List Ambulance
  | _, [] => []
  | k, amb :: rest =>
    tickVehicle osrm g now deltaTime (2 * k) amb :: tickAll osrm g now deltaTime (k + 1) rest

/-- The module-level mutable state of the server: the fleet and the last tick
timestamp (milliseconds).  The `anchor` field is a ghost variable recording
the reference coordinate the fleet was last spawned around — the spec's
`Anchored(c)` state of §4.4; the source keeps no such variable and never
reads it. -/
structure ServerState where
  ambulances : List Ambulance
  lastUpdate : ℝ
  anchor : Coord

/-- Source `updateAmbulances`: advance every vehicle by the wall-clock time
elapsed since the previous tick, capped at 2 seconds, then record `now`. -/
def updateAmbulances (osrm : Osrm) (g : Rng) (now : ℝ) (s : ServerState) : ServerState :=
  { s with
      ambulances := tickAll osrm g now (min ((now - s.lastUpdate) / 1000) 2) 0 s.ambulances,
      lastUpdate := now }

/-- A `lat` or `lng` query parameter as the handler sees it: absent (or the
empty string, which is falsy like an absent one), present but not parsing to
a number (`parseFloat` gives `NaN`), or present and parsing to `x`. -/
inductive QParam where
  | absent
  | invalid
  | num (x : ℝ)

/-- JavaScript truthiness of the raw query string (`lat && lng` in the
source): any present nonempty string is truthy, even a non-numeric one. -/
def truthy : QParam → Bool
  | .absent => false
  | _ => true

/-- The handler's `parseFloat(p) || dflt`: an absent parameter, a `NaN`
parse, or a parse of exactly `0` all fall back to the default. -/
def parseFloatOr (p : QParam) (dflt : ℝ) : ℝ :=
  match p with
  | .num x => if x = 0 then dflt else x
  | _ => dflt

/-- The reference center the handler computes:
`centerLat = parseFloat(lat) || BASE_LAT` and likewise for `lng`. -/
def snapCenter (p q : QParam) : Coord :=
  ⟨parseFloatOr p BASE_LAT, parseFloatOr q BASE_LNG⟩

/-- The handler's degree-space respawn distance:
`Math.sqrt((a.lat - b.lat)^2 + (a.lng - b.lng)^2)` (no meters conversion). -/
def respawnDist (a b : Coord) : ℝ :=
  Real.sqrt ((a.lat - b.lat) ^ 2 + (a.lng - b.lng) ^ 2)

/-- The handler's re-initialization condition: the fleet is empty, or both
query parameters are truthy and the first vehicle's current location is more
than 0.1 degrees from the requested center. -/
def shouldReinit (p q : QParam) (center : Coord) (ambs : List Ambulance) : Prop :=
  match ambs with
  | [] => True
  | a0 :: _ => truthy p = true ∧ truthy q = true ∧ respawnDist a0.location center > 0.1

/-- The JSON body returned by `GET /api/ambulances`. -/
structure SnapshotResponse where
  success : Bool
  count : ℕ
  timestamp : ℝ
  data : List Ambulance

/-- The `GET /api/ambulances` handler: compute the center with zero/NaN
fallback, conditionally re-initialize the fleet, run one tick, and return the
fleet together with the new server state. -/
def snapshot (osrm : Osrm) (g : Rng) (p q : QParam) (now : ℝ) (s : ServerState) :
    SnapshotResponse × ServerState :=
  let center := snapCenter p q
  let s1 :=
    if shouldReinit p q center s.ambulances then
      { s with ambulances := initAmbulances osrm g now center, anchor := center }
    else s
  let s2 := updateAmbulances osrm g now s1
  (⟨true, s2.ambulances.length, now, s2.ambulances⟩, s2)

/-- Spec §4.1 `distance(a, b)`: planar approximation in meters with the
111000 m/degree scale, exactly the formula of the tick. -/
def planarDist (a b : Coord) : ℝ :=
  Real.sqrt ((b.lat - a.lat) * (b.lat - a.lat) + (b.lng - a.lng) * (b.lng - a.lng)) * 111000

/-- Spec §4.1 `interpolate(a, b, t)`: the point `t` of the way from `a`
to `b`, linear in each axis. -/
def interpolate (a b : Coord) (t : ℝ) : Coord :=
  ⟨a.lat + (b.lat - a.lat) * t, a.lng + (b.lng - a.lng) * t⟩

/-- The cursor invariant that actually holds of the code: whenever the path
is nonempty, the cursor is strictly below its length. -/
def cursorOK (v : Ambulance) : Prop :=
  v.route ≠ [] → v.routeIndex < v.route.length

/-- A provider that always reports unavailable. -/
def osrmNone : Osrm := fun _ _ => none

/-- A constant random stream. -/
def gHalf : Rng := fun _ => 1 / 2

/-! ### Basic facts about the embedded operations -/

lemma Ambulance_route_update_location (v : Ambulance) (r : List Coord) :
    ({ v with route := r } : Ambulance).location = v.location := rfl

lemma fetchRoute_unavailable {osrm : Osrm} (h : ∀ x y, osrm x y = none) (x y : Coord) :
    fetchRoute osrm x y = none := by
  unfold fetchRoute
  rw [h]

lemma assignNewRoute_unavailable {osrm : Osrm} (h : ∀ x y, osrm x y = none)
    (g : Rng) (k : ℕ) (amb : Ambulance) (c : Coord) :
    assignNewRoute osrm g k amb c = amb := by
  unfold assignNewRoute
  rw [fetchRoute_unavailable h]

lemma assignNewRoute_location (osrm : Osrm) (g : Rng) (k : ℕ) (amb : Ambulance) (c : Coord) :
    (assignNewRoute osrm g k amb c).location = amb.location := by
  unfold assignNewRoute
  cases fetchRoute osrm amb.location (wanderDest g k c) <;> rfl

lemma tickVehicle_no_route (osrm : Osrm) (g : Rng) (now dt : ℝ) (k : ℕ) {v : Ambulance}
    (h : v.route = []) : tickVehicle osrm g now dt k v = v := by
  unfold tickVehicle
  rw [if_pos (by rw [h] ; rfl)]

lemma tickAll_length (osrm : Osrm) (g : Rng) (now dt : ℝ) :
    ∀ (k : ℕ) (l : List Ambulance), (tickAll osrm g now dt k l).length = l.length := by
  intro k l
  induction l generalizing k with
  | nil => rfl
  | cons a t ih => simp [tickAll, ih]

lemma tickAll_no_routes (osrm : Osrm) (g : Rng) (now dt : ℝ) :
    ∀ (k : ℕ) (l : List Ambulance), (∀ v ∈ l, v.route = []) → tickAll osrm g now dt k l = l := by
  intro k l
  induction l generalizing k with
  | nil => intro _ ; rfl
  | cons a t ih =>
    intro h
    simp only [tickAll]
    rw [tickVehicle_no_route osrm g now dt (2 * k) (h a (by simp)),
      ih (k + 1) (fun v hv => h v (by simp [hv]))]

lemma initAmbulances_no_routes {osrm : Osrm} (h : ∀ x y, osrm x y = none)
    (g : Rng) (now : ℝ) (c : Coord) :
    ∀ v ∈ initAmbulances osrm g now c, v.route = [] := by
  intro v hv
  simp only [initAmbulances, List.mem_map] at hv
  obtain ⟨j, _, rfl⟩ := hv
  simp [mkAmbulance, assignNewRoute_unavailable h]

lemma initAmbulances_length (osrm : Osrm) (g : Rng) (now : ℝ) (c : Coord) :
    (initAmbulances osrm g now c).length = 10 := by
  simp [initAmbulances]

lemma getD_map_coord (l : List (ℝ × ℝ)) : ∀ i, i < l.length →
    ((l.map (fun c => (⟨c.2, c.1⟩ : Coord))).getD i ⟨0, 0⟩).lat = (l.getD i (0, 0)).2 ∧
    ((l.map (fun c => (⟨c.2, c.1⟩ : Coord))).getD i ⟨0, 0⟩).lng = (l.getD i (0, 0)).1 := by
  induction l with
  | nil => intro i hi ; simp at hi
  | cons a t ih =>
    intro i hi
    cases i with
    | zero => simp [List.getD]
    | succ n =>
      simp only [List.map_cons, List.getD_cons_succ]
      exact ih n (by simpa using hi)

/-! ### C8: the route client contract -/

/-- C8.  Given a provider response with at least one route, `fetchRoute`
returns the first route's geometry with every wire `(lng, lat)` pair turned
into an internal `{lat, lng}` coordinate, preserving order and length; a
transport error, malformed response or empty route list gives `none`. -/
theorem C8_route_client (start dest : Coord) (rt : OsrmRoute) (rest : List OsrmRoute) :
    fetchRoute (fun _ _ => none) start dest = none ∧
    fetchRoute (fun _ _ => some ⟨[]⟩) start dest = none ∧
    fetchRoute (fun _ _ => some ⟨rt :: rest⟩) start dest =
      some (rt.geometry.map (fun c => ⟨c.2, c.1⟩)) ∧
    (∀ l, fetchRoute (fun _ _ => some ⟨rt :: rest⟩) start dest = some l →
      l.length = rt.geometry.length ∧
      ∀ i, i < l.length →
        (l.getD i ⟨0, 0⟩).lat = (rt.geometry.getD i (0, 0)).2 ∧
        (l.getD i ⟨0, 0⟩).lng = (rt.geometry.getD i (0, 0)).1) := by
  refine ⟨rfl, rfl, rfl, ?_⟩
  intro l hl
  have hl' : (some (rt.geometry.map (fun c => (⟨c.2, c.1⟩ : Coord))) : Option (List Coord)) =
      some l := hl
  obtain rfl : l = rt.geometry.map (fun c => (⟨c.2, c.1⟩ : Coord)) :=
    (Option.some.inj hl').symm
  refine ⟨by simp, ?_⟩
  intro i hi
  exact getD_map_coord rt.geometry i (by simpa using hi)

/-- Witness for C8 at a concrete two-point wire geometry. -/
theorem C8_route_client_witness :
    fetchRoute (fun _ _ => some ⟨[⟨[(77.2, 28.6), (77.3, 28.7)]⟩]⟩) ⟨0, 0⟩ ⟨1, 1⟩ =
      some [⟨28.6, 77.2⟩, ⟨28.7, 77.3⟩] ∧
    ([(⟨28.6, 77.2⟩ : Coord), ⟨28.7, 77.3⟩].getD 0 ⟨0, 0⟩).lat = 28.6 := by
  constructor
  · exact (C8_route_client ⟨0, 0⟩ ⟨1, 1⟩ ⟨[(77.2, 28.6), (77.3, 28.7)]⟩ []).2.2.1
  · exact ((C8_route_client ⟨0, 0⟩ ⟨1, 1⟩ ⟨[(77.2, 28.6), (77.3, 28.7)]⟩ []).2.2.2
      [⟨28.6, 77.2⟩, ⟨28.7, 77.3⟩] rfl).2 0 (by simp) |>.1

/-! ### C9: frame property of the tick for path-less vehicles -/

/-- C9.  A tick leaves a vehicle with an empty path entirely unchanged —
location, cursor, destination and `lastUpdated` included — while any vehicle
with a nonempty path gets `lastUpdated` refreshed to `now`. -/
theorem C9_frame (osrm : Osrm) (g : Rng) (now dt : ℝ) (k : ℕ) (v : Ambulance) :
    (v.route = [] → tickVehicle osrm g now dt k v = v) ∧
    (v.route ≠ [] → (tickVehicle osrm g now dt k v).lastUpdated = now) := by
  constructor
  · intro h
    exact tickVehicle_no_route osrm g now dt k h
  · intro h
    have hne : ¬ v.route.length = 0 := by simpa using h
    simp only [tickVehicle]
    rw [if_neg hne]
    split_ifs <;> rfl

/-- Witness for C9: a concrete path-less vehicle is untouched by a tick. -/
theorem C9_frame_witness :
    defaultAmb.route = [] ∧ tickVehicle osrmNone gHalf 7 1 0 defaultAmb = defaultAmb :=
  ⟨rfl, (C9_frame osrmNone gHalf 7 1 0 defaultAmb).1 rfl⟩

/-! ### Geometry evaluation helpers -/

lemma planarDist_lat (a b c : ℝ) (h : a ≤ b) :
    planarDist ⟨a, c⟩ ⟨b, c⟩ = (b - a) * 111000 := by
  show Real.sqrt ((b - a) * (b - a) + (c - c) * (c - c)) * 111000 = (b - a) * 111000
  rw [show (b - a) * (b - a) + (c - c) * (c - c) = (b - a) ^ 2 by ring,
    Real.sqrt_sq (by linarith)]

lemma respawnDist_lat (a b c : ℝ) (h : b ≤ a) :
    respawnDist ⟨a, c⟩ ⟨b, c⟩ = a - b := by
  show Real.sqrt ((a - b) ^ 2 + (c - c) ^ 2) = a - b
  rw [show (a - b) ^ 2 + (c - c) ^ 2 = (a - b) ^ 2 by ring, Real.sqrt_sq (by linarith)]

/-! ### C3: exact single-step semantics of the tick -/

/-- C3.  For a vehicle with a nonempty path and `cursor < length - 1`, with
`budget = speed/3.6 * dt` and `d` the planar distance to the next waypoint:
when `budget ≥ d` the tick snaps the location to `path[cursor+1]` and
increments the cursor by exactly one (leftover budget is discarded — the
result does not depend on how much `budget` exceeds `d`); otherwise it moves
the location to the interpolation toward the next waypoint with ratio
`budget/d` and leaves the cursor unchanged. -/
theorem C3_single_step (osrm : Osrm) (g : Rng) (now dt : ℝ) (k : ℕ) (v : Ambulance)
    (hne : ¬ v.route.length = 0) (hlt : v.routeIndex < v.route.length - 1) :
    (v.speed / 3.6 * dt ≥ planarDist v.location (v.route.getD (v.routeIndex + 1) ⟨0, 0⟩) →
      tickVehicle osrm g now dt k v =
        { v with location := v.route.getD (v.routeIndex + 1) ⟨0, 0⟩,
                 routeIndex := v.routeIndex + 1, lastUpdated := now }) ∧
    (v.speed / 3.6 * dt < planarDist v.location (v.route.getD (v.routeIndex + 1) ⟨0, 0⟩) →
      tickVehicle osrm g now dt k v =
        { v with
            location := interpolate v.location (v.route.getD (v.routeIndex + 1) ⟨0, 0⟩)
              (v.speed / 3.6 * dt /
                planarDist v.location (v.route.getD (v.routeIndex + 1) ⟨0, 0⟩)),
            lastUpdated := now }) := by
  constructor
  · intro h
    rw [planarDist] at h
    simp only [tickVehicle]
    rw [if_neg hne, if_pos hlt]
    split_ifs with hb
    · rfl
    · exact absurd h hb
  · intro h
    rw [planarDist] at h
    simp only [tickVehicle]
    rw [if_neg hne, if_pos hlt]
    split_ifs with hb
    · exact absurd hb (not_le.mpr h)
    · simp only [interpolate, planarDist]

/-- A concrete vehicle for the C3 witness: two waypoints, cursor at 0. -/
def c3v : Ambulance :=
  { defaultAmb with
      speed := 36
      location := ⟨0, 0⟩
      route := [⟨0, 0⟩, ⟨0.001, 0⟩]
      routeIndex := 0 }

/-- Witness for C3: with budget 20 m and 111 m to the next waypoint the tick
interpolates and keeps the cursor at 0. -/
theorem C3_single_step_witness :
    (¬ c3v.route.length = 0) ∧ c3v.routeIndex < c3v.route.length - 1 ∧
    c3v.speed / 3.6 * 2 < planarDist c3v.location (c3v.route.getD (c3v.routeIndex + 1) ⟨0, 0⟩) ∧
    tickVehicle osrmNone gHalf 5 2 0 c3v =
      { c3v with
          location := interpolate c3v.location (c3v.route.getD (c3v.routeIndex + 1) ⟨0, 0⟩)
            (c3v.speed / 3.6 * 2 /
              planarDist c3v.location (c3v.route.getD (c3v.routeIndex + 1) ⟨0, 0⟩)),
          lastUpdated := 5 } := by
  have hne : ¬ c3v.route.length = 0 := by simp [c3v]
  have hlt : c3v.routeIndex < c3v.route.length - 1 := by simp [c3v, defaultAmb]
  have hd : planarDist c3v.location (c3v.route.getD (c3v.routeIndex + 1) ⟨0, 0⟩) = 111 := by
    show planarDist ⟨0, 0⟩ ⟨0.001, 0⟩ = 111
    rw [planarDist_lat 0 0.001 0 (by norm_num)]
    norm_num
  have hbud : c3v.speed / 3.6 * 2 <
      planarDist c3v.location (c3v.route.getD (c3v.routeIndex + 1) ⟨0, 0⟩) := by
    rw [hd]
    show (36 : ℝ) / 3.6 * 2 < 111
    norm_num
  exact ⟨hne, hlt, hbud, (C3_single_step osrmNone gHalf 5 2 0 c3v hne hlt).2 hbud⟩

/-! ### C7: wander on arrival -/

/-- C7.  For a vehicle whose cursor has reached the last waypoint, the tick
clears the path and requests a new route starting from the vehicle's current
location; when the provider returns a (nonempty) path the vehicle ends the
tick with that path, cursor 0 and the drawn destination recorded, its
location untouched; when the provider is unavailable it ends with an empty
path. -/
theorem C7_wander (osrm : Osrm) (g : Rng) (now dt : ℝ) (k : ℕ) (v : Ambulance)
    (hne : ¬ v.route.length = 0) (hex : ¬ v.routeIndex < v.route.length - 1) :
    (fetchRoute osrm v.location (wanderDest g k v.location) = none →
      tickVehicle osrm g now dt k v = { v with route := [], lastUpdated := now }) ∧
    (∀ l, fetchRoute osrm v.location (wanderDest g k v.location) = some l → l ≠ [] →
      (tickVehicle osrm g now dt k v).route = l ∧
      (tickVehicle osrm g now dt k v).route ≠ [] ∧
      (tickVehicle osrm g now dt k v).routeIndex = 0 ∧
      (tickVehicle osrm g now dt k v).destination = some (wanderDest g k v.location) ∧
      (tickVehicle osrm g now dt k v).location = v.location) := by
  have hstep : tickVehicle osrm g now dt k v =
      { assignNewRoute osrm g k { v with route := [] } v.location with lastUpdated := now } := by
    simp only [tickVehicle]
    rw [if_neg hne, if_neg hex]
  have hloc : ({ v with route := ([] : List Coord) } : Ambulance).location = v.location := rfl
  constructor
  · intro h
    rw [hstep]
    unfold assignNewRoute
    rw [hloc, h]
  · intro l hl hlne
    rw [hstep]
    unfold assignNewRoute
    rw [hloc, hl]
    exact ⟨rfl, by simpa using hlne, rfl, rfl, rfl⟩

/-- A provider that always answers with one fixed two-point route. -/
def osrmOne : Osrm := fun _ _ => some ⟨[⟨[(0, 0), (0.001, 0.001)]⟩]⟩

/-- A concrete exhausted vehicle for the C7 witness. -/
def c7v : Ambulance :=
  { defaultAmb with location := ⟨0, 0⟩, route := [⟨0, 0⟩], routeIndex := 0 }

/-- Witness for C7: a concrete exhausted vehicle picks up the fetched route
with cursor 0. -/
theorem C7_wander_witness :
    (¬ c7v.route.length = 0) ∧ (¬ c7v.routeIndex < c7v.route.length - 1) ∧
    fetchRoute osrmOne c7v.location (wanderDest gHalf 0 c7v.location) =
      some [⟨0, 0⟩, ⟨0.001, 0.001⟩] ∧
    (tickVehicle osrmOne gHalf 3 1 0 c7v).route = [⟨0, 0⟩, ⟨0.001, 0.001⟩] ∧
    (tickVehicle osrmOne gHalf 3 1 0 c7v).routeIndex = 0 := by
  have hne : ¬ c7v.route.length = 0 := by simp [c7v]
  have hex : ¬ c7v.routeIndex < c7v.route.length - 1 := by simp [c7v, defaultAmb]
  have happ := (C7_wander osrmOne gHalf 3 1 0 c7v hne hex).2
    [⟨0, 0⟩, ⟨0.001, 0.001⟩] rfl (by simp)
  exact ⟨hne, hex, rfl, happ.1, happ.2.2.1⟩

/-! ### C6: route-failure resilience -/

/-- C6.  When every route fetch reports unavailable, a snapshot from the
initial (empty-fleet) server state still succeeds with `success = true` and
`count = 10`, every returned vehicle has an empty path, and a failed route
assignment leaves a vehicle entirely unchanged. -/
theorem C6_resilience (osrm : Osrm) (g : Rng) (p q : QParam) (now lu : ℝ) (a : Coord)
    (hosrm : ∀ x y, osrm x y = none) :
    (snapshot osrm g p q now ⟨[], lu, a⟩).1.success = true ∧
    (snapshot osrm g p q now ⟨[], lu, a⟩).1.count = 10 ∧
    (∀ v ∈ (snapshot osrm g p q now ⟨[], lu, a⟩).1.data, v.route = []) ∧
    (∀ (k : ℕ) (amb : Ambulance) (c : Coord), assignNewRoute osrm g k amb c = amb) := by
  have hinit := initAmbulances_no_routes hosrm g now (snapCenter p q)
  have hambs : (snapshot osrm g p q now ⟨[], lu, a⟩).2.ambulances =
      initAmbulances osrm g now (snapCenter p q) := by
    simp only [snapshot]
    rw [if_pos (by trivial)]
    simp only [updateAmbulances]
    exact tickAll_no_routes osrm g now _ 0 _ hinit
  have hdata : (snapshot osrm g p q now ⟨[], lu, a⟩).1.data =
      (snapshot osrm g p q now ⟨[], lu, a⟩).2.ambulances := rfl
  refine ⟨rfl, ?_, ?_, ?_⟩
  · have hcnt : (snapshot osrm g p q now ⟨[], lu, a⟩).1.count =
        (snapshot osrm g p q now ⟨[], lu, a⟩).2.ambulances.length := rfl
    rw [hcnt, hambs, initAmbulances_length]
  · intro v hv
    rw [hdata, hambs] at hv
    exact hinit v hv
  · intro k amb c
    exact assignNewRoute_unavailable hosrm g k amb c

/-- Witness for C6 at the all-unavailable provider `osrmNone`. -/
theorem C6_resilience_witness :
    (snapshot osrmNone gHalf QParam.absent QParam.absent 0 ⟨[], 0, ⟨0, 0⟩⟩).1.count = 10 ∧
    assignNewRoute osrmNone gHalf 0 defaultAmb ⟨0, 0⟩ = defaultAmb := by
  have h := C6_resilience osrmNone gHalf QParam.absent QParam.absent 0 0 ⟨0, 0⟩
    (fun _ _ => rfl)
  exact ⟨h.2.1, h.2.2.2 0 defaultAmb ⟨0, 0⟩⟩

/-! ### C2: per-tick displacement bound -/

lemma tickAll_getD (osrm : Osrm) (g : Rng) (now dt : ℝ) :
    ∀ (l : List Ambulance) (k j : ℕ), j < l.length →
      (tickAll osrm g now dt k l).getD j defaultAmb =
        tickVehicle osrm g now dt (2 * (k + j)) (l.getD j defaultAmb) := by
  intro l
  induction l with
  | nil => intro k j hj ; simp at hj
  | cons a t ih =>
    intro k j hj
    cases j with
    | zero => simp [tickAll, List.getD]
    | succ n =>
      simp only [tickAll, List.getD_cons_succ]
      rw [ih (k + 1) n (by simpa using hj), show k + 1 + n = k + (n + 1) by omega]

lemma interp_dist (la lb xa xb f : ℝ) (hf : 0 ≤ f) :
    Real.sqrt ((la + xa * f - la) * (la + xa * f - la) +
        (lb + xb * f - lb) * (lb + xb * f - lb)) * 111000 =
      f * (Real.sqrt (xa * xa + xb * xb) * 111000) := by
  rw [show (la + xa * f - la) * (la + xa * f - la) + (lb + xb * f - lb) * (lb + xb * f - lb) =
      f ^ 2 * (xa * xa + xb * xb) by ring]
  rw [Real.sqrt_mul (sq_nonneg f), Real.sqrt_sq hf]
  ring

lemma planarDist_shift (a : Coord) (xa xb f : ℝ) (hf : 0 ≤ f) :
    planarDist a ⟨a.lat + xa * f, a.lng + xb * f⟩ =
      f * (Real.sqrt (xa * xa + xb * xb) * 111000) := by
  show Real.sqrt ((a.lat + xa * f - a.lat) * (a.lat + xa * f - a.lat) +
      (a.lng + xb * f - a.lng) * (a.lng + xb * f - a.lng)) * 111000 = _
  exact interp_dist a.lat a.lng xa xb f hf

/-- The tick moves a non-exhausted vehicle by at most `dt * speed / 3.6`
meters of planar distance. -/
lemma tick_move_bound (osrm : Osrm) (g : Rng) (now dt : ℝ) (k : ℕ) (v : Ambulance)
    (hne : ¬ v.route.length = 0) (hlt : v.routeIndex < v.route.length - 1)
    (hdt : 0 ≤ dt) (hsp : 0 ≤ v.speed) :
    planarDist v.location (tickVehicle osrm g now dt k v).location ≤ dt * v.speed / 3.6 := by
  have hM0 : 0 ≤ v.speed / 3.6 * dt := mul_nonneg (div_nonneg hsp (by norm_num)) hdt
  have hD0 : 0 ≤ Real.sqrt
      (((v.route.getD (v.routeIndex + 1) ⟨0, 0⟩).lat - v.location.lat) *
          ((v.route.getD (v.routeIndex + 1) ⟨0, 0⟩).lat - v.location.lat) +
        ((v.route.getD (v.routeIndex + 1) ⟨0, 0⟩).lng - v.location.lng) *
          ((v.route.getD (v.routeIndex + 1) ⟨0, 0⟩).lng - v.location.lng)) * 111000 :=
    mul_nonneg (Real.sqrt_nonneg _) (by norm_num)
  simp only [tickVehicle]
  rw [if_neg hne, if_pos hlt]
  split_ifs with hb
  · show planarDist v.location (v.route.getD (v.routeIndex + 1) ⟨0, 0⟩) ≤ dt * v.speed / 3.6
    have h1 : planarDist v.location (v.route.getD (v.routeIndex + 1) ⟨0, 0⟩) ≤
        v.speed / 3.6 * dt := hb
    have h2 : v.speed / 3.6 * dt = dt * v.speed / 3.6 := by ring
    exact h1.trans_eq h2
  · have hDpos : 0 < Real.sqrt
        (((v.route.getD (v.routeIndex + 1) ⟨0, 0⟩).lat - v.location.lat) *
            ((v.route.getD (v.routeIndex + 1) ⟨0, 0⟩).lat - v.location.lat) +
          ((v.route.getD (v.routeIndex + 1) ⟨0, 0⟩).lng - v.location.lng) *
            ((v.route.getD (v.routeIndex + 1) ⟨0, 0⟩).lng - v.location.lng)) * 111000 :=
      lt_of_le_of_lt hM0 (not_le.mp hb)
    rw [planarDist_shift v.location _ _ _ (div_nonneg hM0 hD0)]
    rw [div_mul_cancel₀ _ (ne_of_gt hDpos)]
    exact le_of_eq (by ring)

/-- C2.  For a vehicle with a nonempty, non-exhausted path and positive
elapsed wall-clock time, one tick moves its location by a planar distance of
at most `min(dt, 2) * speed / 3.6` meters, `dt` being the elapsed seconds
since the previous tick; in particular after an idle gap of 1000 seconds the
movement is bounded by the cap's worth, `2 * speed / 3.6` meters. -/
theorem C2_displacement (osrm : Osrm) (g : Rng) (now : ℝ) (s : ServerState) (j : ℕ)
    (v : Ambulance) (hj : j < s.ambulances.length) (hv : s.ambulances.getD j defaultAmb = v)
    (hne : ¬ v.route.length = 0) (hlt : v.routeIndex < v.route.length - 1)
    (hsp : 0 ≤ v.speed) (hdt : 0 < now - s.lastUpdate) :
    planarDist v.location
        (((updateAmbulances osrm g now s).ambulances.getD j defaultAmb).location) ≤
      min ((now - s.lastUpdate) / 1000) 2 * v.speed / 3.6 ∧
    ((now - s.lastUpdate) / 1000 = 1000 →
      planarDist v.location
          (((updateAmbulances osrm g now s).ambulances.getD j defaultAmb).location) ≤
        2 * v.speed / 3.6) := by
  have hup : (updateAmbulances osrm g now s).ambulances.getD j defaultAmb =
      tickVehicle osrm g now (min ((now - s.lastUpdate) / 1000) 2) (2 * (0 + j)) v := by
    simp only [updateAmbulances]
    rw [tickAll_getD osrm g now _ s.ambulances 0 j hj, hv]
  have hd0 : 0 ≤ min ((now - s.lastUpdate) / 1000) 2 :=
    le_min (by positivity) (by norm_num)
  have hbound := tick_move_bound osrm g now (min ((now - s.lastUpdate) / 1000) 2)
    (2 * (0 + j)) v hne hlt hd0 hsp
  constructor
  · rw [hup]
    exact hbound
  · intro h1000
    rw [hup]
    have h2 : min ((now - s.lastUpdate) / 1000) 2 * v.speed / 3.6 = 2 * v.speed / 3.6 := by
      rw [h1000] ; norm_num
    exact hbound.trans_eq h2

/-- Witness for C2 at a concrete one-vehicle fleet and a one-second gap. -/
theorem C2_displacement_witness :
    (0 < (⟨[c3v], 0, ⟨0, 0⟩⟩ : ServerState).ambulances.length) ∧
    (⟨[c3v], 0, ⟨0, 0⟩⟩ : ServerState).ambulances.getD 0 defaultAmb = c3v ∧
    (¬ c3v.route.length = 0) ∧ c3v.routeIndex < c3v.route.length - 1 ∧
    (0 : ℝ) ≤ c3v.speed ∧ (0 : ℝ) < 1000 - (⟨[c3v], 0, ⟨0, 0⟩⟩ : ServerState).lastUpdate ∧
    planarDist c3v.location
        (((updateAmbulances osrmNone gHalf 1000 ⟨[c3v], 0, ⟨0, 0⟩⟩).ambulances.getD 0
            defaultAmb).location) ≤
      min ((1000 - (⟨[c3v], 0, ⟨0, 0⟩⟩ : ServerState).lastUpdate) / 1000) 2 *
        c3v.speed / 3.6 := by
  have hne : ¬ c3v.route.length = 0 := by simp [c3v]
  have hlt : c3v.routeIndex < c3v.route.length - 1 := by simp [c3v, defaultAmb]
  have hsp : (0 : ℝ) ≤ c3v.speed := by
    show (0 : ℝ) ≤ 36
    norm_num
  have hdt : (0 : ℝ) < 1000 - (⟨[c3v], 0, ⟨0, 0⟩⟩ : ServerState).lastUpdate := by
    show (0 : ℝ) < 1000 - 0
    norm_num
  exact ⟨by simp, rfl, hne, hlt, hsp, hdt,
    (C2_displacement osrmNone gHalf 1000 ⟨[c3v], 0, ⟨0, 0⟩⟩ 0 c3v (by simp) rfl
      hne hlt hsp hdt).1⟩

/-! ### C1: the cursor bound -/

lemma cursorOK_assign (osrm : Osrm) (g : Rng) (k : ℕ) (amb : Ambulance) (c : Coord)
    (h : cursorOK amb) : cursorOK (assignNewRoute osrm g k amb c) := by
  unfold assignNewRoute
  cases hf : fetchRoute osrm amb.location (wanderDest g k c) with
  | none => exact h
  | some r =>
    intro hr
    exact List.length_pos.mpr (by simpa using hr)

lemma cursorOK_tick (osrm : Osrm) (g : Rng) (now dt : ℝ) (k : ℕ) (v : Ambulance)
    (h : cursorOK v) : cursorOK (tickVehicle osrm g now dt k v) := by
  by_cases h0 : v.route.length = 0
  · rw [tickVehicle_no_route osrm g now dt k (List.length_eq_zero.mp h0)]
    exact h
  · simp only [tickVehicle]
    rw [if_neg h0]
    by_cases hlt : v.routeIndex < v.route.length - 1
    · rw [if_pos hlt]
      split_ifs with hb
      · intro _
        show v.routeIndex + 1 < v.route.length
        omega
      · intro _
        show v.routeIndex < v.route.length
        omega
    · rw [if_neg hlt]
      have hA : cursorOK ({ v with route := ([] : List Coord) }) := by
        intro hc
        exact absurd rfl hc
      intro hc
      exact cursorOK_assign osrm g k _ v.location hA hc

lemma cursorOK_tickAll (osrm : Osrm) (g : Rng) (now dt : ℝ) :
    ∀ (k : ℕ) (l : List Ambulance), (∀ v ∈ l, cursorOK v) →
      ∀ v ∈ tickAll osrm g now dt k l, cursorOK v := by
  intro k l
  induction l generalizing k with
  | nil => intro _ v hv ; simp [tickAll] at hv
  | cons a t ih =>
    intro h v hv
    simp only [tickAll, List.mem_cons] at hv
    rcases hv with hv | hv
    · rw [hv]
      exact cursorOK_tick osrm g now dt (2 * k) a (h a (by simp))
    · exact ih (k + 1) (fun w hw => h w (by simp [hw])) v hv

lemma cursorOK_init (osrm : Osrm) (g : Rng) (now : ℝ) (c : Coord) :
    ∀ v ∈ initAmbulances osrm g now c, cursorOK v := by
  intro v hv
  simp only [initAmbulances, List.mem_map] at hv
  obtain ⟨j, _, rfl⟩ := hv
  unfold mkAmbulance
  apply cursorOK_assign
  intro hc
  exact absurd rfl hc

/-- A concrete vehicle at its final waypoint (cursor 0 on a one-point path). -/
def c1w : Ambulance := { defaultAmb with route := [⟨0, 0⟩] }

/-- C1 counterexample.  At the observation point right after fleet
initialization with the route provider unavailable, every vehicle has an
empty path and cursor 0, so `cursor < length(path)` fails (`0 < 0` is
false); likewise for a vehicle whose path has just been cleared on reaching
its final waypoint during a tick. -/
theorem C1_counterexample :
    (initAmbulances osrmNone gHalf 0 ⟨BASE_LAT, BASE_LNG⟩).length = 10 ∧
    ((initAmbulances osrmNone gHalf 0 ⟨BASE_LAT, BASE_LNG⟩).getD 0 defaultAmb).route.length = 0 ∧
    ¬ ((initAmbulances osrmNone gHalf 0 ⟨BASE_LAT, BASE_LNG⟩).getD 0 defaultAmb).routeIndex <
        ((initAmbulances osrmNone gHalf 0 ⟨BASE_LAT, BASE_LNG⟩).getD 0 defaultAmb).route.length ∧
    (tickVehicle osrmNone gHalf 0 1 0 c1w).route.length = 0 ∧
    ¬ (tickVehicle osrmNone gHalf 0 1 0 c1w).routeIndex <
        (tickVehicle osrmNone gHalf 0 1 0 c1w).route.length := by
  have hno : ∀ x y, osrmNone x y = none := fun _ _ => rfl
  have e0 : (initAmbulances osrmNone gHalf 0 ⟨BASE_LAT, BASE_LNG⟩).getD 0 defaultAmb =
      mkAmbulance osrmNone gHalf 0 ⟨BASE_LAT, BASE_LNG⟩ 1 0 := rfl
  have e1r : (mkAmbulance osrmNone gHalf 0 ⟨BASE_LAT, BASE_LNG⟩ 1 0).route = [] := by
    unfold mkAmbulance
    rw [assignNewRoute_unavailable hno]
  have e1i : (mkAmbulance osrmNone gHalf 0 ⟨BASE_LAT, BASE_LNG⟩ 1 0).routeIndex = 0 := by
    unfold mkAmbulance
    rw [assignNewRoute_unavailable hno]
  have t1 : tickVehicle osrmNone gHalf 0 1 0 c1w =
      { assignNewRoute osrmNone gHalf 0 { c1w with route := [] } c1w.location with
          lastUpdated := 0 } := by
    simp only [tickVehicle]
    rw [if_neg (by simp [c1w]), if_neg (by simp [c1w, defaultAmb])]
  have t2 : tickVehicle osrmNone gHalf 0 1 0 c1w = { c1w with route := [], lastUpdated := 0 } := by
    rw [t1, assignNewRoute_unavailable hno]
  refine ⟨initAmbulances_length _ _ _ _, ?_, ?_, ?_, ?_⟩
  · rw [e0, e1r]
    rfl
  · rw [e0, e1r, e1i]
    simp
  · rw [t2]
    rfl
  · rw [t2]
    simp [c1w, defaultAmb]

/-- C1 amended.  The cursor bound that does hold of the code: for every
vehicle with a NONEMPTY path, `cursor < length(path)` — established by fleet
initialization, preserved by every per-vehicle tick, and preserved by every
snapshot; for a path-less vehicle (freshly spawned before a route arrives,
or just cleared at its final waypoint) the strict bound fails, as the
counterexample shows. -/
theorem C1_cursor_invariant (osrm : Osrm) (g : Rng) (now dt : ℝ) (k : ℕ) (c : Coord)
    (p q : QParam) (s : ServerState) :
    (∀ v ∈ initAmbulances osrm g now c, cursorOK v) ∧
    (∀ v, cursorOK v → cursorOK (tickVehicle osrm g now dt k v)) ∧
    ((∀ v ∈ s.ambulances, cursorOK v) →
      ∀ v ∈ (snapshot osrm g p q now s).2.ambulances, cursorOK v) := by
  refine ⟨cursorOK_init osrm g now c, fun v h => cursorOK_tick osrm g now dt k v h, ?_⟩
  intro hs v hv
  have hbase : ∀ w ∈ (if shouldReinit p q (snapCenter p q) s.ambulances then
      { s with ambulances := initAmbulances osrm g now (snapCenter p q),
               anchor := snapCenter p q }
    else s).ambulances, cursorOK w := by
    by_cases hc : shouldReinit p q (snapCenter p q) s.ambulances
    · rw [if_pos hc]
      exact cursorOK_init osrm g now (snapCenter p q)
    · rw [if_neg hc]
      exact hs
  exact cursorOK_tickAll osrm g now _ 0 _ hbase v hv

/-- Witness for the amended C1: a concrete vehicle satisfying the invariant
keeps it across a tick. -/
theorem C1_cursor_invariant_witness :
    cursorOK c1w ∧ cursorOK (tickVehicle osrmNone gHalf 0 1 0 c1w) := by
  have h : cursorOK c1w := fun _ => Nat.one_pos
  exact ⟨h, (C1_cursor_invariant osrmNone gHalf 0 1 0 ⟨0, 0⟩ QParam.absent QParam.absent
    ⟨[], 0, ⟨0, 0⟩⟩).2.1 c1w h⟩

/-! ### Spawn radius bounds -/

lemma getRandom_offset_bound (u r : ℝ) (h0 : 0 ≤ u) (h1 : u < 1) (hr : 0 ≤ r) :
    |getRandom u (-r) r| ≤ r := by
  unfold getRandom
  rw [abs_le]
  constructor <;> nlinarith

lemma initAmbulances_spawn_bound (osrm : Osrm) (g : Rng) (now : ℝ) (c : Coord)
    (hg : ∀ n, 0 ≤ g n ∧ g n < 1) :
    ∀ v ∈ initAmbulances osrm g now c,
      |v.location.lat - c.lat| ≤ 0.02 ∧ |v.location.lng - c.lng| ≤ 0.02 := by
  intro v hv
  simp only [initAmbulances, List.mem_map] at hv
  obtain ⟨j, _, rfl⟩ := hv
  unfold mkAmbulance
  rw [assignNewRoute_location]
  constructor
  · show |c.lat + getRandom (g (6 * j)) (-0.02) 0.02 - c.lat| ≤ 0.02
    rw [show c.lat + getRandom (g (6 * j)) (-0.02) 0.02 - c.lat =
        getRandom (g (6 * j)) (-0.02) 0.02 by ring]
    exact getRandom_offset_bound _ _ (hg _).1 (hg _).2 (by norm_num)
  · show |c.lng + getRandom (g (6 * j + 1)) (-0.02) 0.02 - c.lng| ≤ 0.02
    rw [show c.lng + getRandom (g (6 * j + 1)) (-0.02) 0.02 - c.lng =
        getRandom (g (6 * j + 1)) (-0.02) 0.02 by ring]
    exact getRandom_offset_bound _ _ (hg _).1 (hg _).2 (by norm_num)

/-! ### C10: zero-coordinate fallback -/

/-- C10.  An absent, non-numeric, or exactly-zero `lat`/`lng` query
parameter falls back to the fixed default reference `(28.6139, 77.2090)`:
`parseFloat(p) || BASE` maps all three cases to the default, a snapshot from
an empty fleet behaves identically for `0` parameters and absent ones, and
the spawned vehicles land within the spawn radius of the default center —
so a client supplying latitude or longitude `0` can never anchor the fleet
at that coordinate. -/
theorem C10_zero_fallback (osrm : Osrm) (g : Rng) (now lu : ℝ) (a : Coord)
    (hg : ∀ n, 0 ≤ g n ∧ g n < 1) :
    (∀ d : ℝ, parseFloatOr QParam.absent d = d ∧ parseFloatOr QParam.invalid d = d ∧
      parseFloatOr (QParam.num 0) d = d) ∧
    snapCenter (QParam.num 0) (QParam.num 0) = ⟨BASE_LAT, BASE_LNG⟩ ∧
    snapshot osrm g (QParam.num 0) (QParam.num 0) now ⟨[], lu, a⟩ =
      snapshot osrm g QParam.absent QParam.absent now ⟨[], lu, a⟩ ∧
    (∀ v ∈ initAmbulances osrm g now ⟨BASE_LAT, BASE_LNG⟩,
      |v.location.lat - BASE_LAT| ≤ 0.02 ∧ |v.location.lng - BASE_LNG| ≤ 0.02) := by
  have hpf : ∀ d : ℝ, parseFloatOr QParam.absent d = d ∧ parseFloatOr QParam.invalid d = d ∧
      parseFloatOr (QParam.num 0) d = d := by
    intro d
    refine ⟨rfl, rfl, ?_⟩
    simp [parseFloatOr]
  have hc : snapCenter (QParam.num 0) (QParam.num 0) = snapCenter QParam.absent QParam.absent := by
    simp [snapCenter, parseFloatOr]
  refine ⟨hpf, by simp [snapCenter, parseFloatOr], ?_, ?_⟩
  · simp only [snapshot]
    rw [hc,
      if_pos (show shouldReinit (QParam.num 0) (QParam.num 0)
        (snapCenter QParam.absent QParam.absent)
        (⟨[], lu, a⟩ : ServerState).ambulances from trivial),
      if_pos (show shouldReinit QParam.absent QParam.absent
        (snapCenter QParam.absent QParam.absent)
        (⟨[], lu, a⟩ : ServerState).ambulances from trivial)]
  · exact initAmbulances_spawn_bound osrm g now ⟨BASE_LAT, BASE_LNG⟩ hg

/-- Witness for C10 at the constant random stream. -/
theorem C10_zero_fallback_witness :
    (∀ n, (0 : ℝ) ≤ gHalf n ∧ gHalf n < 1) ∧
    parseFloatOr (QParam.num 0) 5 = 5 ∧
    snapCenter (QParam.num 0) (QParam.num 0) = ⟨BASE_LAT, BASE_LNG⟩ := by
  have hg : ∀ n, (0 : ℝ) ≤ gHalf n ∧ gHalf n < 1 := by
    intro n
    constructor <;> norm_num [gHalf]
  have h := C10_zero_fallback osrmNone gHalf 0 0 ⟨0, 0⟩ hg
  exact ⟨hg, (h.1 5).2.2, h.2.1⟩

/-! ### C4: the respawn transition -/

lemma respawnDist_lat_le (a b c : ℝ) (h : a ≤ b) :
    respawnDist ⟨a, c⟩ ⟨b, c⟩ = b - a := by
  show Real.sqrt ((a - b) ^ 2 + (c - c) ^ 2) = b - a
  rw [show (a - b) ^ 2 + (c - c) ^ 2 = (b - a) ^ 2 by ring, Real.sqrt_sq (by linarith)]

lemma shouldReinit_iff (p q : QParam) (c : Coord) (l : List Ambulance) :
    shouldReinit p q c l ↔ (l.length = 0 ∨ (truthy p = true ∧ truthy q = true ∧
      respawnDist ((l.getD 0 defaultAmb).location) c > 0.1)) := by
  cases l with
  | nil => simp [shouldReinit]
  | cons a t => simp [shouldReinit, List.getD]

/-- C4 amended.  The fleet is fully re-initialized exactly when it is empty,
or when both coordinate parameters are truthy and the planar degree-space
distance between the FIRST VEHICLE'S CURRENT location (not the anchored
reference center) and the requested center exceeds 0.1; on respawn the
resulting fleet is the tick of ten fresh vehicles whose initial locations
lie within the spawn radius (0.02 degrees per axis) of the requested center,
otherwise the existing fleet is reused (only ticked). -/
theorem C4_respawn (osrm : Osrm) (g : Rng) (p q : QParam) (now : ℝ) (s : ServerState)
    (hg : ∀ n, 0 ≤ g n ∧ g n < 1) :
    (shouldReinit p q (snapCenter p q) s.ambulances ↔
      (s.ambulances.length = 0 ∨ (truthy p = true ∧ truthy q = true ∧
        respawnDist ((s.ambulances.getD 0 defaultAmb).location) (snapCenter p q) > 0.1))) ∧
    (shouldReinit p q (snapCenter p q) s.ambulances →
      (snapshot osrm g p q now s).2.ambulances =
        tickAll osrm g now (min ((now - s.lastUpdate) / 1000) 2) 0
          (initAmbulances osrm g now (snapCenter p q)) ∧
      (snapshot osrm g p q now s).2.anchor = snapCenter p q ∧
      (initAmbulances osrm g now (snapCenter p q)).length = 10 ∧
      (∀ v ∈ initAmbulances osrm g now (snapCenter p q),
        |v.location.lat - (snapCenter p q).lat| ≤ 0.02 ∧
        |v.location.lng - (snapCenter p q).lng| ≤ 0.02)) ∧
    (¬ shouldReinit p q (snapCenter p q) s.ambulances →
      (snapshot osrm g p q now s).2.ambulances =
        tickAll osrm g now (min ((now - s.lastUpdate) / 1000) 2) 0 s.ambulances ∧
      (snapshot osrm g p q now s).2.anchor = s.anchor) := by
  refine ⟨shouldReinit_iff p q (snapCenter p q) s.ambulances, ?_, ?_⟩
  · intro hc
    refine ⟨?_, ?_, initAmbulances_length osrm g now (snapCenter p q),
      initAmbulances_spawn_bound osrm g now (snapCenter p q) hg⟩
    · simp only [snapshot]
      rw [if_pos hc]
      rfl
    · simp only [snapshot]
      rw [if_pos hc]
      rfl
  · intro hc
    constructor
    · simp only [snapshot]
      rw [if_neg hc]
      rfl
    · simp only [snapshot]
      rw [if_neg hc]
      rfl

/-- Witness for the amended C4: an empty fleet triggers the respawn. -/
theorem C4_respawn_witness :
    (∀ n, (0 : ℝ) ≤ gHalf n ∧ gHalf n < 1) ∧
    shouldReinit QParam.absent QParam.absent (snapCenter QParam.absent QParam.absent)
      (⟨[], 0, ⟨0, 0⟩⟩ : ServerState).ambulances ∧
    (snapshot osrmNone gHalf QParam.absent QParam.absent 0 ⟨[], 0, ⟨0, 0⟩⟩).2.anchor =
      snapCenter QParam.absent QParam.absent := by
  have hg : ∀ n, (0 : ℝ) ≤ gHalf n ∧ gHalf n < 1 := by
    intro n
    constructor <;> norm_num [gHalf]
  have h := C4_respawn osrmNone gHalf QParam.absent QParam.absent 0 ⟨[], 0, ⟨0, 0⟩⟩ hg
  exact ⟨hg, trivial, (h.2.1 trivial).2.1⟩

/-- The random stream of the C4 counterexample: the first draw places the
first vehicle near the edge of the spawn box, all later draws are centered. -/
def gC4 : Rng := fun n => if n = 0 then 0.9975 else 1 / 2

/-- First call of the counterexample: spawn a fleet around `(1.1, 1)`. -/
def c4state1 : ServerState :=
  (snapshot osrmNone gC4 (QParam.num 1.1) (QParam.num 1) 0 ⟨[], 0, ⟨0, 0⟩⟩).2

/-- Second call of the counterexample: query reference `(1.2199, 1)`. -/
def c4state2 : ServerState :=
  (snapshot osrmNone gC4 (QParam.num 1.2199) (QParam.num 1) 0 c4state1).2

/-- C4 counterexample.  After anchoring the fleet at `(1.1, 1)` with its
first vehicle spawned at `(1.1199, 1)`, a query at `(1.2199, 1)` is at
degree-distance `0.1199 > 0.1` from the anchored reference center, yet the
fleet is NOT re-initialized (the same ten vehicles survive, the first one
still at latitude `1.1199`): the code measures the respawn distance from
`ambulances[0].location` (here exactly `0.1`, not `> 0.1`), not from the
anchored center the claim names. -/
theorem C4_counterexample :
    respawnDist c4state1.anchor ⟨1.2199, 1⟩ > 0.1 ∧
    snapCenter (QParam.num 1.2199) (QParam.num 1) = ⟨1.2199, 1⟩ ∧
    (c4state1.ambulances.getD 0 defaultAmb).location = ⟨1.1199, 1⟩ ∧
    c4state1.ambulances.length = 10 ∧
    c4state2.ambulances = c4state1.ambulances := by
  have hno : ∀ x y, osrmNone x y = none := fun _ _ => rfl
  have hcen1 : snapCenter (QParam.num 1.1) (QParam.num 1) = ⟨1.1, 1⟩ := by
    norm_num [snapCenter, parseFloatOr]
  have hcen2 : snapCenter (QParam.num 1.2199) (QParam.num 1) = ⟨1.2199, 1⟩ := by
    norm_num [snapCenter, parseFloatOr]
  have hambs1 : c4state1.ambulances =
      initAmbulances osrmNone gC4 0 (snapCenter (QParam.num 1.1) (QParam.num 1)) := by
    show (snapshot osrmNone gC4 (QParam.num 1.1) (QParam.num 1) 0 ⟨[], 0, ⟨0, 0⟩⟩).2.ambulances = _
    simp only [snapshot]
    rw [if_pos (show shouldReinit (QParam.num 1.1) (QParam.num 1)
      (snapCenter (QParam.num 1.1) (QParam.num 1))
      (⟨[], 0, ⟨0, 0⟩⟩ : ServerState).ambulances from trivial)]
    simp only [updateAmbulances]
    exact tickAll_no_routes osrmNone gC4 0 _ 0 _ (initAmbulances_no_routes hno gC4 0 _)
  have hanch1 : c4state1.anchor = snapCenter (QParam.num 1.1) (QParam.num 1) := by
    show (snapshot osrmNone gC4 (QParam.num 1.1) (QParam.num 1) 0 ⟨[], 0, ⟨0, 0⟩⟩).2.anchor = _
    simp only [snapshot]
    rw [if_pos (show shouldReinit (QParam.num 1.1) (QParam.num 1)
      (snapCenter (QParam.num 1.1) (QParam.num 1))
      (⟨[], 0, ⟨0, 0⟩⟩ : ServerState).ambulances from trivial)]
    rfl
  have hh : (initAmbulances osrmNone gC4 0 (snapCenter (QParam.num 1.1) (QParam.num 1))).getD 0
        defaultAmb =
      mkAmbulance osrmNone gC4 0 (snapCenter (QParam.num 1.1) (QParam.num 1)) 1 0 := rfl
  have hloc : (c4state1.ambulances.getD 0 defaultAmb).location = ⟨1.1199, 1⟩ := by
    rw [hambs1, hh]
    unfold mkAmbulance
    rw [assignNewRoute_location, hcen1]
    apply Coord.ext
    · show (1.1 : ℝ) + getRandom (gC4 0) (-0.02) 0.02 = 1.1199
      norm_num [getRandom, gC4]
    · show (1 : ℝ) + getRandom (gC4 (0 + 1)) (-0.02) 0.02 = 1
      norm_num [getRandom, gC4]
  have hlen1 : c4state1.ambulances.length = 10 := by
    rw [hambs1]
    exact initAmbulances_length _ _ _ _
  have hnre : ¬ shouldReinit (QParam.num 1.2199) (QParam.num 1)
      (snapCenter (QParam.num 1.2199) (QParam.num 1)) c4state1.ambulances := by
    rw [shouldReinit_iff]
    intro h
    rcases h with h | ⟨-, -, h⟩
    · rw [hlen1] at h
      exact absurd h (by norm_num)
    · rw [hloc, hcen2, respawnDist_lat_le 1.1199 1.2199 1 (by norm_num)] at h
      norm_num at h
  refine ⟨?_, hcen2, hloc, hlen1, ?_⟩
  · rw [hanch1, hcen1, respawnDist_lat_le 1.1 1.2199 1 (by norm_num)]
    norm_num
  · show (snapshot osrmNone gC4 (QParam.num 1.2199) (QParam.num 1) 0 c4state1).2.ambulances = _
    simp only [snapshot]
    rw [if_neg hnre]
    simp only [updateAmbulances]
    apply tickAll_no_routes
    rw [hambs1]
    exact initAmbulances_no_routes hno gC4 0 _

/-! ### Zero-elapsed-time ticks -/

lemma zero_dist_eq (x y : ℝ) (h : Real.sqrt (x * x + y * y) * 111000 ≤ 0) : x = 0 ∧ y = 0 := by
  have hs : Real.sqrt (x * x + y * y) = 0 := by
    nlinarith [Real.sqrt_nonneg (x * x + y * y)]
  have hS : x * x + y * y ≤ 0 := Real.sqrt_eq_zero'.mp hs
  have hx : x * x = 0 := le_antisymm (by nlinarith [mul_self_nonneg y]) (mul_self_nonneg x)
  have hy : y * y = 0 := le_antisymm (by nlinarith [mul_self_nonneg x]) (mul_self_nonneg y)
  exact ⟨mul_self_eq_zero.mp hx, mul_self_eq_zero.mp hy⟩

lemma tickVehicle_zero_location (osrm : Osrm) (g : Rng) (now : ℝ) (k : ℕ) (v : Ambulance) :
    (tickVehicle osrm g now 0 k v).location = v.location := by
  by_cases h0 : v.route.length = 0
  · rw [tickVehicle_no_route osrm g now 0 k (List.length_eq_zero.mp h0)]
  · simp only [tickVehicle]
    rw [if_neg h0]
    by_cases hlt : v.routeIndex < v.route.length - 1
    · rw [if_pos hlt]
      split_ifs with hb
      · rw [mul_zero] at hb
        obtain ⟨hx, hy⟩ := zero_dist_eq _ _ hb
        apply Coord.ext
        · exact sub_eq_zero.mp hx
        · exact sub_eq_zero.mp hy
      · apply Coord.ext
        · show v.location.lat + _ * (v.speed / 3.6 * 0 / _) = v.location.lat
          rw [mul_zero, zero_div, mul_zero, add_zero]
        · show v.location.lng + _ * (v.speed / 3.6 * 0 / _) = v.location.lng
          rw [mul_zero, zero_div, mul_zero, add_zero]
    · rw [if_neg hlt]
      show (assignNewRoute osrm g k { v with route := [] } v.location).location = v.location
      rw [assignNewRoute_location]

lemma tickAll_zero_map_loc (osrm : Osrm) (g : Rng) (now : ℝ) :
    ∀ (k : ℕ) (l : List Ambulance),
      (tickAll osrm g now 0 k l).map (fun a => a.location) =
        l.map (fun a => a.location) := by
  intro k l
  induction l generalizing k with
  | nil => rfl
  | cons a t ih =>
    simp only [tickAll, List.map_cons]
    rw [tickVehicle_zero_location, ih (k + 1)]

lemma tickAll_zero_getD_loc (osrm : Osrm) (g : Rng) (now : ℝ) (k : ℕ) (l : List Ambulance) :
    ((tickAll osrm g now 0 k l).getD 0 defaultAmb).location =
      (l.getD 0 defaultAmb).location := by
  cases l with
  | nil => rfl
  | cons a t => exact tickVehicle_zero_location osrm g now (2 * k) a

lemma close_not_far (v c : Coord) (h1 : |v.lat - c.lat| ≤ 0.02) (h2 : |v.lng - c.lng| ≤ 0.02) :
    ¬ respawnDist v c > 0.1 := by
  intro hgt
  unfold respawnDist at hgt
  have ha := abs_le.mp h1
  have hb := abs_le.mp h2
  have hS : (v.lat - c.lat) ^ 2 + (v.lng - c.lng) ^ 2 ≤ 0.01 := by nlinarith
  have hle : Real.sqrt ((v.lat - c.lat) ^ 2 + (v.lng - c.lng) ^ 2) ≤ 0.1 := by
    calc Real.sqrt ((v.lat - c.lat) ^ 2 + (v.lng - c.lng) ^ 2) ≤ Real.sqrt 0.01 :=
        Real.sqrt_le_sqrt hS
      _ = 0.1 := by
        rw [show (0.01 : ℝ) = 0.1 ^ 2 by norm_num, Real.sqrt_sq (by norm_num)]
  linarith

/-- The post-state of a snapshot call, written out by respawn decision. -/
lemma snapshot_state (osrm : Osrm) (g : Rng) (p q : QParam) (now : ℝ) (s : ServerState) :
    (snapshot osrm g p q now s).2 =
      if shouldReinit p q (snapCenter p q) s.ambulances then
        (⟨tickAll osrm g now (min ((now - s.lastUpdate) / 1000) 2) 0
            (initAmbulances osrm g now (snapCenter p q)), now, snapCenter p q⟩ : ServerState)
      else
        (⟨tickAll osrm g now (min ((now - s.lastUpdate) / 1000) 2) 0 s.ambulances, now,
          s.anchor⟩ : ServerState) := by
  simp only [snapshot, updateAmbulances]
  split_ifs with hc <;> rfl

/-! ### C5: idempotent reads -/

/-- C5 amended.  Two snapshot calls with the same reference and a frozen
clock — no time elapsed between the calls AND none since the last tick, so
both ticks run with `dt = 0` — return identical vehicle locations.  (The
counterexample shows the claim fails when time HAS elapsed before the first
call: its tick can move vehicle 0 across the 0.1-degree respawn threshold,
so the second, zero-elapsed call respawns the fleet and reports different
locations.) -/
theorem C5_idempotent (osrm : Osrm) (g : Rng) (p q : QParam) (t : ℝ) (s : ServerState)
    (hg : ∀ n, 0 ≤ g n ∧ g n < 1) (ht : t = s.lastUpdate) :
    (snapshot osrm g p q t (snapshot osrm g p q t s).2).2.ambulances.map (fun a => a.location) =
      (snapshot osrm g p q t s).2.ambulances.map (fun a => a.location) := by
  have hdt0 : min ((t - s.lastUpdate) / 1000) 2 = 0 := by
    rw [ht]
    norm_num
  by_cases hc : shouldReinit p q (snapCenter p q) s.ambulances
  · have h1 : (snapshot osrm g p q t s).2 =
        ⟨tickAll osrm g t 0 0 (initAmbulances osrm g t (snapCenter p q)), t,
          snapCenter p q⟩ := by
      rw [snapshot_state, if_pos hc, hdt0]
    rw [h1]
    have hnre : ¬ shouldReinit p q (snapCenter p q)
        (tickAll osrm g t 0 0 (initAmbulances osrm g t (snapCenter p q))) := by
      rw [shouldReinit_iff]
      intro h
      rcases h with h | ⟨-, -, h⟩
      · rw [tickAll_length, initAmbulances_length] at h
        exact absurd h (by norm_num)
      · rw [tickAll_zero_getD_loc] at h
        have hb := initAmbulances_spawn_bound osrm g t (snapCenter p q) hg
          (mkAmbulance osrm g t (snapCenter p q) 1 0)
          (List.mem_map.mpr ⟨0, by simp, rfl⟩)
        have hgetD : (initAmbulances osrm g t (snapCenter p q)).getD 0 defaultAmb =
            mkAmbulance osrm g t (snapCenter p q) 1 0 := rfl
        rw [hgetD] at h
        exact close_not_far _ _ hb.1 hb.2 h
    have h2 : (snapshot osrm g p q t
        (⟨tickAll osrm g t 0 0 (initAmbulances osrm g t (snapCenter p q)), t,
          snapCenter p q⟩ : ServerState)).2 =
        ⟨tickAll osrm g t 0 0
            (tickAll osrm g t 0 0 (initAmbulances osrm g t (snapCenter p q))), t,
          snapCenter p q⟩ := by
      rw [snapshot_state]
      dsimp only
      rw [if_neg hnre, show min ((t - t) / 1000) 2 = (0 : ℝ) by norm_num]
    rw [h2]
    exact tickAll_zero_map_loc osrm g t 0
      (tickAll osrm g t 0 0 (initAmbulances osrm g t (snapCenter p q)))
  · have h1 : (snapshot osrm g p q t s).2 =
        ⟨tickAll osrm g t 0 0 s.ambulances, t, s.anchor⟩ := by
      rw [snapshot_state, if_neg hc, hdt0]
    rw [h1]
    have hnre : ¬ shouldReinit p q (snapCenter p q) (tickAll osrm g t 0 0 s.ambulances) := by
      rw [shouldReinit_iff]
      rw [shouldReinit_iff] at hc
      intro h
      apply hc
      rcases h with h | ⟨t1, t2, h⟩
      · left
        rw [tickAll_length] at h
        exact h
      · right
        rw [tickAll_zero_getD_loc] at h
        exact ⟨t1, t2, h⟩
    have h2 : (snapshot osrm g p q t
        (⟨tickAll osrm g t 0 0 s.ambulances, t, s.anchor⟩ : ServerState)).2 =
        ⟨tickAll osrm g t 0 0 (tickAll osrm g t 0 0 s.ambulances), t, s.anchor⟩ := by
      rw [snapshot_state]
      dsimp only
      rw [if_neg hnre, show min ((t - t) / 1000) 2 = (0 : ℝ) by norm_num]
    rw [h2]
    exact tickAll_zero_map_loc osrm g t 0 (tickAll osrm g t 0 0 s.ambulances)

/-- Witness for the amended C5 at a concrete frozen-clock double call. -/
theorem C5_idempotent_witness :
    (∀ n, (0 : ℝ) ≤ gHalf n ∧ gHalf n < 1) ∧
    (0 : ℝ) = (⟨[], 0, ⟨0, 0⟩⟩ : ServerState).lastUpdate ∧
    (snapshot osrmNone gHalf QParam.absent QParam.absent 0
        (snapshot osrmNone gHalf QParam.absent QParam.absent 0
          ⟨[], 0, ⟨0, 0⟩⟩).2).2.ambulances.map (fun a => a.location) =
      (snapshot osrmNone gHalf QParam.absent QParam.absent 0
        ⟨[], 0, ⟨0, 0⟩⟩).2.ambulances.map (fun a => a.location) := by
  have hg : ∀ n, (0 : ℝ) ≤ gHalf n ∧ gHalf n < 1 := by
    intro n
    constructor <;> norm_num [gHalf]
  exact ⟨hg, rfl,
    C5_idempotent osrmNone gHalf QParam.absent QParam.absent 0 ⟨[], 0, ⟨0, 0⟩⟩ hg rfl⟩

/-- A vehicle 0.0999 degrees from the queried center `(1, 1)`, en route
toward a waypoint further away, at 60 km/h. -/
def c5amb0 : Ambulance :=
  { id := ambId 1
    driverName := "Rahul Singh"
    status := "En Route"
    speed := 60
    location := ⟨1.0999, 1⟩
    lastUpdated := 0
    route := [⟨1.0999, 1⟩, ⟨1.13, 1⟩]
    routeIndex := 0
    destination := some ⟨1.13, 1⟩ }

/-- Nine path-less vehicles near the center. -/
def c5rest : List Ambulance :=
  (List.range 9).map fun j =>
    { id := ambId (j + 2)
      driverName := driverNames.getD (j + 1) emptyStr
      status := "Available"
      speed := 40
      location := ⟨1.1, 1⟩
      lastUpdated := 0
      route := []
      routeIndex := 0
      destination := none }

/-- The server state before the two calls: last tick at t = 0 ms. -/
def c5state : ServerState := ⟨c5amb0 :: c5rest, 0, ⟨1.1, 1⟩⟩

/-- First call at t = 2000 ms (2 seconds elapsed), reference `(1, 1)`. -/
def c5state1 : ServerState :=
  (snapshot osrmNone gHalf (QParam.num 1) (QParam.num 1) 2000 c5state).2

/-- Second call at the same instant t = 2000 ms, same reference. -/
def c5state2 : ServerState :=
  (snapshot osrmNone gHalf (QParam.num 1) (QParam.num 1) 2000 c5state1).2

lemma getD_map_loc (l : List Ambulance) (hl : l ≠ []) :
    (l.map (fun a => a.location)).getD 0 ⟨0, 0⟩ = (l.getD 0 defaultAmb).location := by
  cases l with
  | nil => exact absurd rfl hl
  | cons a t => rfl

/-- C5 counterexample.  Two snapshot calls at the same instant t = 2000 ms
with the same reference `(1, 1)` return DIFFERENT locations: the first
call's tick (2 seconds elapsed before it) moves vehicle 0 from latitude
`1.0999` (distance `0.0999 ≤ 0.1` from the center, so no respawn) to
latitude `1.0999 + 301/1002330 ≈ 1.1002` (distance `> 0.1`), so the second
call — with zero elapsed time between the calls — respawns the fleet around
`(1, 1)` and reports vehicle 0 at latitude `1`. -/
theorem C5_counterexample :
    (c5state1.ambulances.getD 0 defaultAmb).location.lat = 1.0999 + 301 / 1002330 ∧
    (c5state2.ambulances.getD 0 defaultAmb).location.lat = 1 ∧
    c5state2.ambulances.map (fun a => a.location) ≠
      c5state1.ambulances.map (fun a => a.location) := by
  have hcen : snapCenter (QParam.num 1) (QParam.num 1) = ⟨1, 1⟩ := by
    norm_num [snapCenter, parseFloatOr]
  have hsq : Real.sqrt (((1.13 : ℝ) - 1.0999) * (1.13 - 1.0999) +
      ((1 : ℝ) - 1) * (1 - 1)) * 111000 = 3341.1 := by
    rw [show ((1.13 : ℝ) - 1.0999) * (1.13 - 1.0999) + ((1 : ℝ) - 1) * (1 - 1) =
        0.0301 ^ 2 by norm_num, Real.sqrt_sq (by norm_num)]
    norm_num
  have hbudN : ¬ ((60 : ℝ) / 3.6 * 2 ≥ Real.sqrt (((1.13 : ℝ) - 1.0999) * (1.13 - 1.0999) +
      ((1 : ℝ) - 1) * (1 - 1)) * 111000) := by
    rw [hsq]
    norm_num
  have hne : ¬ c5amb0.route.length = 0 := by simp [c5amb0]
  have hlt : c5amb0.routeIndex < c5amb0.route.length - 1 := by simp [c5amb0]
  have e1 : c5amb0.route.getD (c5amb0.routeIndex + 1) ⟨0, 0⟩ = (⟨1.13, 1⟩ : Coord) := rfl
  have e2 : c5amb0.location = (⟨1.0999, 1⟩ : Coord) := rfl
  have e3 : c5amb0.speed = 60 := rfl
  have hlat1 : ∀ k, (tickVehicle osrmNone gHalf 2000 2 k c5amb0).location.lat =
      1.0999 + 301 / 1002330 := by
    intro k
    simp only [tickVehicle]
    rw [if_neg hne, if_pos hlt, e1, e2, e3]
    dsimp only
    rw [if_neg hbudN]
    dsimp only
    rw [hsq]
    norm_num
  have hlng1 : ∀ k, (tickVehicle osrmNone gHalf 2000 2 k c5amb0).location.lng = 1 := by
    intro k
    simp only [tickVehicle]
    rw [if_neg hne, if_pos hlt, e1, e2, e3]
    dsimp only
    rw [if_neg hbudN]
    dsimp only
    rw [hsq]
    norm_num
  have hrest : ∀ v ∈ c5rest, v.route = [] := by
    intro v hv
    simp only [c5rest, List.mem_map] at hv
    obtain ⟨j, -, rfl⟩ := hv
    rfl
  have hnre1 : ¬ shouldReinit (QParam.num 1) (QParam.num 1)
      (snapCenter (QParam.num 1) (QParam.num 1)) c5state.ambulances := by
    rw [shouldReinit_iff]
    intro h
    rcases h with h | ⟨-, -, h⟩
    · have h10 : c5state.ambulances.length = 10 := by simp [c5state, c5rest]
      rw [h10] at h
      exact absurd h (by norm_num)
    · have e : (c5state.ambulances.getD 0 defaultAmb).location = (⟨1.0999, 1⟩ : Coord) := rfl
      rw [e, hcen, respawnDist_lat 1.0999 1 1 (by norm_num)] at h
      norm_num at h
  have htick1 : tickAll osrmNone gHalf 2000 2 0 (c5amb0 :: c5rest) =
      tickVehicle osrmNone gHalf 2000 2 (2 * 0) c5amb0 :: c5rest := by
    rw [show tickAll osrmNone gHalf 2000 2 0 (c5amb0 :: c5rest) =
        tickVehicle osrmNone gHalf 2000 2 (2 * 0) c5amb0 ::
          tickAll osrmNone gHalf 2000 2 (0 + 1) c5rest from rfl,
      tickAll_no_routes osrmNone gHalf 2000 2 (0 + 1) c5rest hrest]
  have hdt2 : min ((2000 - c5state.lastUpdate) / 1000) 2 = (2 : ℝ) := by
    show min (((2000 : ℝ) - 0) / 1000) 2 = 2
    norm_num
  have h1 : c5state1 =
      ⟨tickVehicle osrmNone gHalf 2000 2 (2 * 0) c5amb0 :: c5rest, 2000, ⟨1.1, 1⟩⟩ := by
    show (snapshot osrmNone gHalf (QParam.num 1) (QParam.num 1) 2000 c5state).2 = _
    rw [snapshot_state, if_neg hnre1, hdt2,
      show c5state.ambulances = c5amb0 :: c5rest from rfl, htick1]
    rfl
  have hl0 : (tickVehicle osrmNone gHalf 2000 2 (2 * 0) c5amb0).location =
      (⟨1.0999 + 301 / 1002330, 1⟩ : Coord) := by
    apply Coord.ext
    · exact hlat1 (2 * 0)
    · exact hlng1 (2 * 0)
  have hre2 : shouldReinit (QParam.num 1) (QParam.num 1)
      (snapCenter (QParam.num 1) (QParam.num 1))
      (tickVehicle osrmNone gHalf 2000 2 (2 * 0) c5amb0 :: c5rest) := by
    simp only [shouldReinit]
    refine ⟨rfl, rfl, ?_⟩
    rw [hl0, hcen, respawnDist_lat (1.0999 + 301 / 1002330) 1 1 (by norm_num)]
    norm_num
  have h2 : c5state2 =
      ⟨tickAll osrmNone gHalf 2000 0 0 (initAmbulances osrmNone gHalf 2000 ⟨1, 1⟩), 2000,
        ⟨1, 1⟩⟩ := by
    show (snapshot osrmNone gHalf (QParam.num 1) (QParam.num 1) 2000 c5state1).2 = _
    rw [snapshot_state, h1]
    dsimp only
    rw [if_pos hre2, hcen, show min (((2000 : ℝ) - 2000) / 1000) 2 = (0 : ℝ) by norm_num]
  have hA : (c5state1.ambulances.getD 0 defaultAmb).location.lat = 1.0999 + 301 / 1002330 := by
    rw [h1]
    exact hlat1 (2 * 0)
  have hB : (c5state2.ambulances.getD 0 defaultAmb).location.lat = 1 := by
    rw [h2]
    show ((tickAll osrmNone gHalf 2000 0 0
        (initAmbulances osrmNone gHalf 2000 ⟨1, 1⟩)).getD 0 defaultAmb).location.lat = 1
    rw [tickAll_zero_getD_loc]
    show (mkAmbulance osrmNone gHalf 2000 ⟨1, 1⟩ 1 0).location.lat = 1
    unfold mkAmbulance
    rw [assignNewRoute_location]
    show (1 : ℝ) + getRandom (gHalf 0) (-0.02) 0.02 = 1
    norm_num [getRandom, gHalf]
  refine ⟨hA, hB, ?_⟩
  intro hEq
  have hne1 : c5state1.ambulances ≠ [] := by
    rw [h1]
    exact List.cons_ne_nil _ _
  have hne2 : c5state2.ambulances ≠ [] := by
    rw [h2]
    dsimp only
    intro h0
    have hl2 := congrArg List.length h0
    rw [tickAll_length, initAmbulances_length] at hl2
    norm_num at hl2
  have hx := congrArg (fun l => (l.getD 0 (⟨0, 0⟩ : Coord)).lat) hEq
  dsimp only at hx
  rw [getD_map_loc c5state2.ambulances hne2, getD_map_loc c5state1.ambulances hne1] at hx
  rw [hA, hB] at hx
  norm_num at hx

end RoadRaksha
